import Mathlib

/-!
Verification development for the attribution core of the Scalene sampling
profiler (`src/source/pywhere.cpp`): the `TraceConfig` path filter, the
`whereInPython` stack walker, the main-thread fallback heuristic, and the
`register_files_to_profile` installation entry point.

Strings are modelled as lists of characters; C `strstr` becomes a Boolean
substring test.  External capabilities (the `realpath` system call, the
Python runtime's thread list and frame chains) are passed in as explicit
parameters.  The walker's `while` loop is modelled with explicit fuel so
that its (non-)termination behaviour can be stated faithfully.
-/

/-- C strings, modelled as lists of characters. -/
abbrev Str := List Char

/-- Coerce a Lean string literal to the `Str` model. -/
def str (s : String) : Str := s.data

/-- Boolean test that `needle` occurs at the start of `hay`. -/
def isPrefixB : Str → Str → Bool
  | [], _ => true
  | _ :: _, [] => false
  | a :: as, b :: bs => a == b && isPrefixB as bs

/-- Model of C `strstr(hay, needle) != NULL`: `needle` occurs as a
contiguous substring of `hay` (the empty needle matches everything). -/
def strstrB (hay needle : Str) : Bool :=
  match hay with
  | [] => isPrefixB needle []
  | c :: t => isPrefixB needle (c :: t) || strstrB t needle

/-- Model of C `*filename == c` (false on the empty string, whose first
byte is the terminating NUL). -/
def headIsChar (fn : Str) (c : Char) : Bool :=
  match fn with
  | [] => false
  | a :: _ => a == c

/-- The filter configuration (`class TraceConfig` of pywhere.cpp): the
decoded include-pattern byte strings, the decoded base path, and the
stored `profile_all` flag.  The C++ `owner`/`path_owner` members only pin
Python object lifetimes and carry no further data; `owner` is never null
for a constructed instance (the constructor stores the caller's list). -/
structure TraceConfig where
  items : List Str
  scalene_base_path : Str
  profile_all : Bool
deriving DecidableEq

/-- Outcome of `TraceConfig::should_trace`: a normal Boolean return, or a
process abort (the `realpath` failure branch calls `abort()`). -/
inductive STResult where
  | ret (b : Bool)
  | abort
deriving DecidableEq

/-- Model of `TraceConfig::should_trace` (pywhere.cpp lines 34-62).  `rp` models
the `realpath` system call: `some r` is a successful canonicalization to
`r`, `none` is failure. -/
def should_trace (cfg : TraceConfig) (rp : Str → Option Str) (filename : Str) :
    STResult :=
  if strstrB filename (str "site-packages") || strstrB filename (str "/lib/python") then
    .ret false
  else if headIsChar filename '<' && strstrB filename (str "<ipython") then
    .ret true
  else if strstrB filename (str "scalene/scalene") then
    .ret false
  else if cfg.items.any (fun traceable => strstrB filename traceable) then
    .ret true
  else
    match rp filename with
    | none => .abort
    | some resolved => .ret (strstrB resolved cfg.scalene_base_path)

/-- A Python frame, as the walker sees it: the code object's decoded
filename (`none` models `PyUnicode_AsASCIIString` returning null), the
current line number (`PyFrame_GetLineNumber`), and the current bytecode
index (`PyFrame_GetLasti`). -/
structure Frame where
  co_filename : Option Str
  lineno : Nat
  lasti : Nat
deriving DecidableEq

/-- The three out-parameters of `whereInPython` together with its `int`
return value (`ret = true` models returning 1). -/
structure WhereOut where
  ret : Bool
  filename : Str
  lineno : Nat
  bytei : Nat
deriving DecidableEq

/-- Outcome of the walker's `while` loop under a fuel bound: the function
returned (`ret`), the process aborted inside `should_trace` (`abort`), or
the loop was still running when the fuel ran out (`spin`). -/
inductive WalkOut where
  | ret (o : WhereOut)
  | abort
  | spin
deriving DecidableEq

/-- The fast-path exclusion test of pywhere.cpp line 192: the source uses
`strstr(filenameStr, "<")`, i.e. `<` anywhere in the name, together with
the "/python" and "scalene/scalene" fragments. -/
def fastPathSkip (fn : Str) : Bool :=
  strstrB fn (str "<") || strstrB fn (str "/python") ||
    strstrB fn (str "scalene/scalene")

/-- The `while (frame != nullptr)` loop of `whereInPython` (lines
180-212), with the frame chain listed innermost first and `fuel` bounding
the number of iterations.  The second component records, in order, the
filenames on which `traceConfig->should_trace` was invoked.  Note the
empty-filename branch: the C++ `continue` jumps back to the loop test
without executing the `frame = PyFrame_GetBack(frame)` at the loop's end,
so the model recurses on the *same* chain there. -/
def walkLoop (cfg : TraceConfig) (rp : Str → Option Str) :
    Nat → List Frame → WalkOut × List Str
  | 0, _ => (.spin, [])
  | _ + 1, [] => (.ret ⟨false, str "<BOGUS>", 1, 0⟩, [])
  | fuel + 1, f :: rest =>
    match f.co_filename with
    | none => (.ret ⟨false, str "<BOGUS>", 1, 0⟩, [])
    | some fn =>
      if fn.isEmpty then
        walkLoop cfg rp fuel (f :: rest)
      else if fastPathSkip fn then
        walkLoop cfg rp fuel rest
      else
        match should_trace cfg rp fn with
        | .abort => (.abort, [fn])
        | .ret true => (.ret ⟨true, fn, f.lineno, f.lasti⟩, [fn])
        | .ret false =>
          let r := walkLoop cfg rp fuel rest
          (r.1, fn :: r.2)

/-- One entry of the interpreter's thread list: the Python-level thread
id and the thread's current frame chain (`none` models
`PyThreadState_GetFrame` returning null). -/
structure ThreadState where
  id : Nat
  frame : Option (List Frame)
deriving DecidableEq

/-- The selection loop of `findMainPythonThread_frame` (lines 129-148):
fold over the thread list keeping the thread with the smallest id (the
first such thread on ties, since the update condition is strict). -/
def findMainThread : List ThreadState → Option ThreadState
  | [] => none
  | t :: ts => some (ts.foldl (fun main u => if main.id > u.id then u else main) t)

/-- Model of `findMainPythonThread_frame`: the current frame of the smallest-id
thread, or `none` when there is no thread or that thread has no frame. -/
def findMainPythonThread_frame (threads : List ThreadState) : Option (List Frame) :=
  match findMainThread threads with
  | none => none
  | some t => t.frame

/-- Model of `whereInPython` (lines 150-213).  Explicit parameters stand for the
ambient runtime state: `pyInit` is `Py_IsInitialized()`, `threadFrame` is
the sampling thread's current frame chain after `PyThreadState_GetFrame`
(`none` when the thread state or its frame is null), `threads` is the
interpreter's thread list used by the fallback, `cfg` is the installed
`TraceConfig` singleton (`none` when never installed), and
`fn0`/`ln0`/`b0` are the values held by the caller's three reference
parameters on entry. -/
def whereInPython (pyInit : Bool) (threadFrame : Option (List Frame))
    (threads : List ThreadState) (cfg : Option TraceConfig)
    (rp : Str → Option Str) (fuel : Nat)
    (fn0 : Str) (ln0 b0 : Nat) : WalkOut :=
  if !pyInit then .ret ⟨false, fn0, ln0, b0⟩
  else
    let frame : Option (List Frame) :=
      match threadFrame with
      | some f => some f
      | none => findMainPythonThread_frame threads
    match cfg with
    | none => .ret ⟨false, str "<BOGUS>", 1, 0⟩
    | some c =>
      match frame with
      | none => .ret ⟨false, str "<BOGUS>", 1, 0⟩
      | some chain => (walkLoop c rp fuel chain).1

/-- Outcome of `register_files_to_profile`: success (`Py_RETURN_NONE`), a
null return from a failed `PyArg_ParseTuple`, or a null return after
`PyErr_SetString` with the given message. -/
inductive RegResult where
  | ok
  | parseError
  | raised (msg : Str)
deriving DecidableEq

/-- The module-level mutable state touched by registration: the
`TraceConfig::_instance` singleton, the ghost list of instances destroyed
by `delete _instance`, and whether `*p_whereInPython` has been set. -/
structure RegState where
  inst : Option TraceConfig
  freed : List TraceConfig
  published : Bool
deriving DecidableEq

/-- Model of `TraceConfig::setInstance` (lines 72-76): delete the previous
instance, then install the new one. -/
def setInstance (newCfg : TraceConfig) (st : RegState) : RegState :=
  { inst := some newCfg,
    freed := st.freed ++ st.inst.toList,
    published := st.published }

/-- Model of `register_files_to_profile` (lines 215-237).  `parseOk` models a
successful `PyArg_ParseTuple`, `isList` the `PyList_Check`, `newCfg` the
freshly constructed `TraceConfig`, and `dlsymOk` whether the
`dlsym(RTLD_DEFAULT, "p_whereInPython")` lookup succeeds. -/
def register_files_to_profile (parseOk isList : Bool) (newCfg : TraceConfig)
    (dlsymOk : Bool) (st : RegState) : RegResult × RegState :=
  if parseOk = false then (.parseError, st)
  else if isList = false then
    (.raised (str "Requires list or list-like object"), st)
  else
    let st1 := setInstance newCfg st
    if dlsymOk = false then
      (.raised (str "Unable to find p_whereInPython"), st1)
    else (.ok, { st1 with published := true })

/-- Claim C2: any path containing "site-packages" or "/lib/python" is
rejected by `should_trace` regardless of the include patterns, the base
path, and the realpath oracle: the rule-1 exclusion is tested first. -/
theorem should_trace_sitePackages_false (cfg : TraceConfig)
    (rp : Str → Option Str) (fn : Str)
    (h : strstrB fn (str "site-packages") = true ∨
         strstrB fn (str "/lib/python") = true) :
    should_trace cfg rp fn = .ret false := by
  rcases h with h | h <;> simp [should_trace, h]

theorem should_trace_sitePackages_false_witness :
    should_trace ⟨[str "site-packages"], str "/base", false⟩ (fun _ => none)
      (str "/u/site-packages/m.py") = .ret false :=
  should_trace_sitePackages_false _ _ _ (Or.inl (by decide))

/-- Claim C8: the stored `profile_all` flag is never consulted by the
matching algorithm: two configurations differing only in that flag give
identical `should_trace` results on every input. -/
theorem should_trace_ignores_profile_all (items : List Str) (bp : Str)
    (pa1 pa2 : Bool) (rp : Str → Option Str) (fn : Str) :
    should_trace ⟨items, bp, pa1⟩ rp fn = should_trace ⟨items, bp, pa2⟩ rp fn := rfl

/-- Claim C3: on a path matched by none of the first three rules, a
matching include fragment forces acceptance; with no matching fragment
and a successful canonicalization, the result is exactly "the canonical
path contains the base path". -/
theorem should_trace_include_then_basepath (cfg : TraceConfig)
    (rp : Str → Option Str) (fn : Str)
    (h1 : (strstrB fn (str "site-packages") || strstrB fn (str "/lib/python")) = false)
    (h2 : (headIsChar fn '<' && strstrB fn (str "<ipython")) = false)
    (h3 : strstrB fn (str "scalene/scalene") = false) :
    (cfg.items.any (fun traceable => strstrB fn traceable) = true →
      should_trace cfg rp fn = .ret true) ∧
    (∀ r, cfg.items.any (fun traceable => strstrB fn traceable) = false →
      rp fn = some r →
      should_trace cfg rp fn = .ret (strstrB r cfg.scalene_base_path)) := by
  constructor
  · intro h4
    simp [should_trace, h1, h2, h3, h4]
  · intro r h4 h5
    simp [should_trace, h1, h2, h3, h4, h5]

theorem should_trace_include_then_basepath_witness :
    should_trace ⟨[str "app"], str "/base", false⟩ (fun _ => none)
      (str "/home/u/app.py") = .ret true ∧
    should_trace ⟨[str "app"], str "/base", false⟩
      (fun _ => some (str "/base/c.py")) (str "/x/c.py") =
      .ret (strstrB (str "/base/c.py") (str "/base")) :=
  ⟨(should_trace_include_then_basepath _ _ _ (by decide) (by decide)
      (by decide)).1 (by decide),
   (should_trace_include_then_basepath _ _ _ (by decide) (by decide)
      (by decide)).2 (str "/base/c.py") (by decide) rfl⟩

/-- Claim C6: `should_trace` hits the `abort()` branch exactly when the
path matches none of rules 1-4 and `realpath` fails; whenever resolution
is never reached, or succeeds, it returns normally. -/
theorem should_trace_abort_iff (cfg : TraceConfig) (rp : Str → Option Str)
    (fn : Str) :
    should_trace cfg rp fn = .abort ↔
      ((strstrB fn (str "site-packages") || strstrB fn (str "/lib/python")) = false ∧
       (headIsChar fn '<' && strstrB fn (str "<ipython")) = false ∧
       strstrB fn (str "scalene/scalene") = false ∧
       cfg.items.any (fun traceable => strstrB fn traceable) = false ∧
       rp fn = none) := by
  cases h1 : (strstrB fn (str "site-packages") || strstrB fn (str "/lib/python")) <;>
    cases h2 : (headIsChar fn '<' && strstrB fn (str "<ipython")) <;>
      cases h3 : strstrB fn (str "scalene/scalene") <;>
        cases h4 : cfg.items.any (fun traceable => strstrB fn traceable) <;>
          cases h5 : rp fn <;>
            simp [should_trace, h1, h2, h3, h4, h5]

theorem should_trace_abort_iff_witness :
    should_trace ⟨[str "aa"], str "/b", false⟩ (fun _ => none) (str "zzz") =
      .abort :=
  (should_trace_abort_iff _ _ _).mpr (by decide)

/-- Claim C1 (refutation of the termination part on the code as written):
a frame whose decoded source-file identifier is the empty string makes
the walk loop forever on that same frame - the `continue` jumps back to
the loop test without executing the `frame = PyFrame_GetBack(frame)` at
the loop's end, so no number of loop iterations finishes the walk. -/
theorem walkLoop_spins_on_empty_filename (cfg : TraceConfig)
    (rp : Str → Option Str) (ln bi : Nat) (rest : List Frame) :
    ∀ fuel : Nat,
      (walkLoop cfg rp fuel (⟨some [], ln, bi⟩ :: rest)).1 = .spin := by
  intro fuel
  induction fuel with
  | zero => rfl
  | succ n ih => simpa [walkLoop] using ih

/-- Companion fact: on a chain all of whose frames carry a nonempty
decodable identifier, the loop finishes within stack depth many
iterations - the boundedness the spec asserts fails only through the
empty-identifier frames above. -/
theorem walkLoop_no_spin (cfg : TraceConfig) (rp : Str → Option Str) :
    ∀ (chain : List Frame) (fuel : Nat),
      (∀ f ∈ chain, ∀ fn, f.co_filename = some fn → fn.isEmpty = false) →
      chain.length < fuel →
      (walkLoop cfg rp fuel chain).1 ≠ .spin := by
  intro chain
  induction chain with
  | nil =>
    intro fuel _ hfuel
    cases fuel with
    | zero => exact absurd hfuel (by simp)
    | succ n => simp [walkLoop]
  | cons f rest ih =>
    intro fuel hne hfuel
    cases fuel with
    | zero => exact absurd hfuel (by simp)
    | succ n =>
      have hlen : rest.length < n := by
        simp only [List.length_cons] at hfuel
        exact Nat.lt_of_succ_lt_succ hfuel
      have hrest : ∀ f ∈ rest, ∀ fn, f.co_filename = some fn →
          fn.isEmpty = false :=
        fun g hg => hne g (List.mem_cons_of_mem f hg)
      cases hcf : f.co_filename with
      | none => simp [walkLoop, hcf]
      | some fn =>
        have hfn : fn.isEmpty = false :=
          hne f (List.mem_cons_self f rest) fn hcf
        by_cases hskip : fastPathSkip fn = true
        · simpa [walkLoop, hcf, hfn, hskip] using ih n hrest hlen
        · rw [Bool.not_eq_true] at hskip
          cases hst : should_trace cfg rp fn with
          | abort => simp [walkLoop, hcf, hfn, hskip, hst]
          | ret b =>
            cases b with
            | true => simp [walkLoop, hcf, hfn, hskip, hst]
            | false =>
              simpa [walkLoop, hcf, hfn, hskip, hst] using ih n hrest hlen

/-- Claim C4 counterexample: the identifier "a<b" does not start with
'<' (and contains neither "/python" nor "scalene/scalene"), so under the
claim the walker must query the filter on it - and the filter would
accept it, its include list holding the fragment "a".  The code instead
fast-path-skips the frame because `strstr(filenameStr, "<")` finds the
'<' in the middle: the filter is consulted on nothing and the walk ends
in the sentinel. -/
theorem walkLoop_consults_counterexample :
    ¬ (str "a<b") ∈ (walkLoop ⟨[str "a"], str "/b", false⟩ (fun _ => none) 4
        [⟨some (str "a<b"), 5, 7⟩]).2 ∧
    (walkLoop ⟨[str "a"], str "/b", false⟩ (fun _ => none) 4
        [⟨some (str "a<b"), 5, 7⟩]).1 = .ret ⟨false, str "<BOGUS>", 1, 0⟩ ∧
    should_trace ⟨[str "a"], str "/b", false⟩ (fun _ => none) (str "a<b") =
      .ret true := by decide

/-- Claim C4 (amended): a frame with a nonempty decodable identifier is
skipped without consulting the filter exactly when the identifier
contains '<' anywhere - not merely when it starts with '<' - or contains
"/python" or "scalene/scalene"; on every other such frame the walker
invokes `should_trace` on the identifier. -/
theorem walkLoop_skip_iff_fastPath (cfg : TraceConfig)
    (rp : Str → Option Str) (fuel : Nat) (f : Frame) (rest : List Frame)
    (fn : Str) (hfn : f.co_filename = some fn) (hne : fn.isEmpty = false) :
    (fastPathSkip fn = true →
      walkLoop cfg rp (fuel + 1) (f :: rest) = walkLoop cfg rp fuel rest) ∧
    (fastPathSkip fn = false →
      fn ∈ (walkLoop cfg rp (fuel + 1) (f :: rest)).2) := by
  constructor
  · intro hs
    simp [walkLoop, hfn, hne, hs]
  · intro hs
    simp only [walkLoop, hfn, hne, hs, Bool.false_eq_true, if_false]
    cases hst : should_trace cfg rp fn with
    | abort => simp [hst]
    | ret b => cases b <;> simp [hst]

theorem walkLoop_skip_iff_fastPath_witness :
    walkLoop ⟨[], str "/b", false⟩ (fun _ => none) (3 + 1)
        [⟨some (str "b<c"), 1, 2⟩] =
      walkLoop ⟨[], str "/b", false⟩ (fun _ => none) 3 [] :=
  (walkLoop_skip_iff_fastPath _ _ 3 _ [] _ rfl (by decide)).1 (by decide)

/-- Claim C5 counterexample: with the runtime uninitialized, a call whose
output parameters hold ("x", 5, 3) on entry returns found=false but does
not write the sentinel - the early `return 0` at the initialization check
precedes the sentinel assignment. -/
theorem whereInPython_uninit_counterexample :
    ¬ (whereInPython false (some [⟨some (str "q"), 2, 2⟩]) []
        (some ⟨[], str "/b", false⟩) (fun _ => none) 4 (str "x") 5 3 =
       .ret ⟨false, str "<BOGUS>", 1, 0⟩) := by decide

/-- Claim C5 (amended): when the runtime is uninitialized the resolver
returns found=false immediately and leaves the three output parameters
unchanged; the sentinel is written only after the initialization check
passes. -/
theorem whereInPython_uninit_outputs_unchanged
    (threadFrame : Option (List Frame)) (threads : List ThreadState)
    (cfg : Option TraceConfig) (rp : Str → Option Str) (fuel : Nat)
    (fn0 : Str) (ln0 b0 : Nat) :
    whereInPython false threadFrame threads cfg rp fuel fn0 ln0 b0 =
      .ret ⟨false, fn0, ln0, b0⟩ := rfl

/-- Claim C9 counterexample: with no filter installed but the runtime
also uninitialized, the call returns found=false with the outputs left as
they were ("x", 5, 3), not set to the sentinel. -/
theorem whereInPython_noConfig_counterexample :
    ¬ (whereInPython false (some [⟨some (str "q"), 2, 2⟩]) [] none
        (fun _ => none) 4 (str "x") 5 3 =
       .ret ⟨false, str "<BOGUS>", 1, 0⟩) := by decide

/-- Claim C9 (amended): with no filter ever installed and the runtime
initialized, the resolver returns found=false with the sentinel already
written, uniformly in the thread's frame chain, the thread list, the
realpath oracle and the fuel - so no frame identifier is examined; an
installed filter is a precondition for any non-sentinel result. -/
theorem whereInPython_noConfig_sentinel (threadFrame : Option (List Frame))
    (threads : List ThreadState) (rp : Str → Option Str) (fuel : Nat)
    (fn0 : Str) (ln0 b0 : Nat) :
    whereInPython true threadFrame threads none rp fuel fn0 ln0 b0 =
      .ret ⟨false, str "<BOGUS>", 1, 0⟩ := rfl

/-- The thread kept by the selection fold is the start thread or one of
the scanned threads. -/
theorem foldl_main_mem (ts : List ThreadState) :
    ∀ t : ThreadState,
      ts.foldl (fun main u => if main.id > u.id then u else main) t = t ∨
      ts.foldl (fun main u => if main.id > u.id then u else main) t ∈ ts := by
  induction ts with
  | nil => intro t; exact Or.inl rfl
  | cons v ts ih =>
    intro t
    simp only [List.foldl_cons]
    rcases ih (if t.id > v.id then v else t) with h | h
    · rw [h]
      by_cases hc : t.id > v.id
      · right; simp [hc]
      · left; simp [hc]
    · right; exact List.mem_cons_of_mem _ h

/-- The thread kept by the selection fold has an id no larger than the
start thread's and than every scanned thread's. -/
theorem foldl_main_le (ts : List ThreadState) :
    ∀ t u : ThreadState, (u = t ∨ u ∈ ts) →
      (ts.foldl (fun main w => if main.id > w.id then w else main) t).id ≤
        u.id := by
  induction ts with
  | nil =>
    intro t u hu
    rcases hu with rfl | h
    · exact le_refl _
    · cases h
  | cons v ts ih =>
    intro t u hu
    simp only [List.foldl_cons]
    have hstep1 : (if t.id > v.id then v else t).id ≤ t.id := by
      by_cases hc : t.id > v.id
      · simpa [hc] using Nat.le_of_lt hc
      · simp [hc]
    have hstep2 : (if t.id > v.id then v else t).id ≤ v.id := by
      by_cases hc : t.id > v.id
      · simp [hc]
      · simpa [hc] using Nat.le_of_not_lt hc
    rcases hu with rfl | hu
    · exact le_trans (ih _ _ (Or.inl rfl)) hstep1
    · rcases List.mem_cons.mp hu with rfl | hu
      · exact le_trans (ih _ _ (Or.inl rfl)) hstep2
      · exact ih _ _ (Or.inr hu)

/-- Claim C7: when the sampling thread has no current frame, the resolver
walks instead from the current frame of the thread selected by
`findMainPythonThread_frame`; the selected thread is one of the known
threads and its id is minimal among them; and when no thread exists the
call returns the sentinel. -/
theorem whereInPython_fallback_min_thread (threads : List ThreadState)
    (c : TraceConfig) (rp : Str → Option Str) (fuel : Nat)
    (fn0 : Str) (ln0 b0 : Nat) :
    (threads = [] →
      whereInPython true none threads (some c) rp fuel fn0 ln0 b0 =
        .ret ⟨false, str "<BOGUS>", 1, 0⟩) ∧
    (∀ t, findMainThread threads = some t →
      t ∈ threads ∧ ∀ u ∈ threads, t.id ≤ u.id) ∧
    (∀ t chain, findMainThread threads = some t → t.frame = some chain →
      whereInPython true none threads (some c) rp fuel fn0 ln0 b0 =
        (walkLoop c rp fuel chain).1) := by
  refine ⟨?_, ?_, ?_⟩
  · rintro rfl; rfl
  · intro t ht
    cases threads with
    | nil => simp [findMainThread] at ht
    | cons v ts =>
      simp only [findMainThread, Option.some.injEq] at ht
      subst ht
      constructor
      · rcases foldl_main_mem ts v with h | h
        · rw [h]; exact List.mem_cons_self _ _
        · exact List.mem_cons_of_mem _ h
      · intro u hu
        rcases List.mem_cons.mp hu with rfl | hu
        · exact foldl_main_le ts _ _ (Or.inl rfl)
        · exact foldl_main_le ts _ _ (Or.inr hu)
  · intro t chain ht hchain
    simp [whereInPython, findMainPythonThread_frame, ht, hchain]

theorem whereInPython_fallback_min_thread_witness :
    whereInPython true none
      [⟨3, some [⟨some (str "h"), 1, 1⟩]⟩, ⟨1, some [⟨some (str "g"), 2, 2⟩]⟩]
      (some ⟨[], str "/b", false⟩) (fun _ => none) 3 (str "x") 9 9 =
      (walkLoop ⟨[], str "/b", false⟩ (fun _ => none) 3
        [⟨some (str "g"), 2, 2⟩]).1 :=
  (whereInPython_fallback_min_thread _ _ _ _ _ _ _).2.2
    ⟨1, some [⟨some (str "g"), 2, 2⟩]⟩ _ (by decide) rfl

/-- Claim C10: registration installs the new filter - destroying the
previous instance - before the `dlsym` lookup of "p_whereInPython"; a
failed lookup reports an error while the new filter stays installed and
nothing is published, so the operation is not atomic, whereas the
not-list-like error leaves the state untouched; on full success the new
filter is installed and the resolver is published. -/
theorem register_installs_before_publish (parseOk isList dlsymOk : Bool)
    (newCfg : TraceConfig) (st : RegState) :
    (parseOk = true → isList = false →
      register_files_to_profile parseOk isList newCfg dlsymOk st =
        (.raised (str "Requires list or list-like object"), st)) ∧
    (parseOk = true → isList = true → dlsymOk = false →
      register_files_to_profile parseOk isList newCfg dlsymOk st =
        (.raised (str "Unable to find p_whereInPython"),
         ⟨some newCfg, st.freed ++ st.inst.toList, st.published⟩)) ∧
    (parseOk = true → isList = true → dlsymOk = true →
      register_files_to_profile parseOk isList newCfg dlsymOk st =
        (.ok, ⟨some newCfg, st.freed ++ st.inst.toList, true⟩)) := by
  refine ⟨?_, ?_, ?_⟩
  · rintro rfl rfl
    simp [register_files_to_profile]
  · rintro rfl rfl rfl
    simp [register_files_to_profile, setInstance]
  · rintro rfl rfl rfl
    simp [register_files_to_profile, setInstance]

theorem register_installs_before_publish_witness :
    register_files_to_profile true true ⟨[str "a"], str "/p", false⟩ false
      ⟨some ⟨[], str "/q", true⟩, [], true⟩ =
      (.raised (str "Unable to find p_whereInPython"),
       ⟨some ⟨[str "a"], str "/p", false⟩, [⟨[], str "/q", true⟩], true⟩) :=
  (register_installs_before_publish _ _ _ _ _).2.1 rfl rfl rfl
